import Mathlib

/-!
Verification development for the SiteClienteLucas catalog application.

The definitions below are a shallow embedding of the Python sources:

* `src/main.py`   — the FastAPI application (route handlers, image pipeline);
* `src/utils.py`  — WhatsApp link generation;
* `src/models.py` / `src/schemas.py` — the `Produto` entity and its views;
* `src/config.py` / `src/database.py` — environment configuration and startup.

Conventions used throughout:

* raw byte strings are `List Nat` (each entry a byte value 0..255);
* Python `None` becomes `Option`, raised `HTTPException`s become explicit
  error results;
* the SHA-256 hex digest is abstracted as a function parameter
  `hashHex : Bytes -> String` (its only relevant property here is that a
  hex digest is a nonempty string); the image codecs of Pillow are
  abstracted as encoder parameters returning output bytes for given
  dimensions.

The data-access module imported as `crud` by `main.py` is not present in
the repository sources (the file `src/crud.py` is a second, older copy of
`main.py` and does not define the query helpers); where such missing code
decides a claim it is modelled from the specification and marked
`Modelled from the spec:` in its doc comment.
-/

/-- Byte strings are lists of byte values. -/
abbrev Bytes := List Nat

/-- PNG signature, `_PNG_MAGIC = b"\x89PNG\r\n\x1a\n"` (src/main.py line 150). -/
def pngMagic : Bytes := [0x89, 0x50, 0x4E, 0x47, 0x0D, 0x0A, 0x1A, 0x0A]

/-- JPEG signature, `_JPG_MAGIC = b"\xff\xd8\xff"` (src/main.py line 151). -/
def jpgMagic : Bytes := [0xFF, 0xD8, 0xFF]

/-- `_detect_image_mime` (src/main.py lines 154-165): classify a byte string
by its magic-byte signature, returning the detected MIME type or `none`. -/
def _detect_image_mime (data : Bytes) : Option String :=
  if pngMagic.isPrefixOf data then some "image/png"
  else if jpgMagic.isPrefixOf data then some "image/jpeg"
  else none

/-- The `Produto` row (src/models.py lines 4-26).  The `Numeric(20, 2)` price
column is modelled as a rational; timestamps are omitted (no claim uses
them). -/
structure Produto where
  id : Nat
  nome : String
  descricao : Option String
  valor : ℚ
  imagem_url : Option String
  imagem_mime : Option String
  imagem_bytes : Option Bytes
  imagem_sha256 : Option String
  ativo : Bool
deriving Repr, DecidableEq

/-- Python `str.strip` with argument a single quote character: remove every
leading and every trailing `"` character. -/
def stripQuotes (s : String) : String :=
  String.mk (((s.toList.dropWhile (· = '"')).reverse.dropWhile (· = '"')).reverse)

/-- Result of the media endpoint: 304 without body, 200 with body, MIME and
ETag header, or an HTTP error status with detail. -/
inductive MediaResult where
  | notModified
  | okBody (body : Bytes) (mime : String) (etag : String)
  | err (status : Nat) (detail : String)
deriving Repr, DecidableEq

/-- HTTP status of a `MediaResult` (304 carries no body, `okBody` is 200). -/
def MediaResult.status : MediaResult → Nat
  | .notModified => 304
  | .okBody _ _ _ => 200
  | .err s _ => s

/-- Body bytes carried by a `MediaResult` (304 and errors carry none). -/
def MediaResult.body : MediaResult → Bytes
  | .okBody b _ _ => b
  | _ => []

/-- `media_produto` (src/main.py lines 486-539).  The product lookup
(`crud.get_produto`, absent from the sources) is a parameter
`lookup : Nat -> Option Produto`; the SHA-256 hex digest is the parameter
`hashHex`.  Mirrors the source order: 404 when the product is missing or
its `imagem_bytes` is falsy (absent or empty), 500 when the stored bytes
match no known signature, then the ETag / If-None-Match comparison with
Python truthiness on the header value. -/
def media_produto (hashHex : Bytes → String) (lookup : Nat → Option Produto)
    (produto_id : Nat) (ifNoneMatch : Option String) : MediaResult :=
  match lookup produto_id with
  | none => .err 404 "Imagem não encontrada"
  | some produto =>
    match produto.imagem_bytes with
    | none => .err 404 "Imagem não encontrada"
    | some raw =>
      if raw = [] then .err 404 "Imagem não encontrada"
      else
        match _detect_image_mime raw with
        | none => .err 500 "Imagem no banco está inválida/corrompida."
        | some realMime =>
          let etag := hashHex raw
          match ifNoneMatch with
          | some inm =>
            if inm ≠ "" ∧ stripQuotes inm = etag then .notModified
            else .okBody raw realMime ("\"" ++ etag ++ "\"")
          | none => .okBody raw realMime ("\"" ++ etag ++ "\"")

/-- An uploaded file as seen by the handlers: declared filename, declared
content type and the raw payload bytes. -/
structure UploadFile where
  filename : String
  contentType : Option String
  data : Bytes
deriving Repr, DecidableEq

/-- An HTTP error raised by a handler (`HTTPException`). -/
structure HttpError where
  status : Nat
  detail : String
deriving Repr, DecidableEq

/-- `ALLOWED_MIME` (src/main.py line 134). -/
def allowedMime : List String := ["image/png", "image/jpeg"]

/-- `MAX_IMAGE_BYTES` default (src/main.py line 135). -/
def maxImageBytes : Nat := 4000000

/-- `_read_image_upload` (src/main.py lines 324-373).  The final
compaction step `_optimize_image_bytes` decodes the image with Pillow, so
it is abstracted as the parameter `optimizeF` (it may itself fail with a
400 error).  All validation steps preceding it are embedded literally and
in source order: presence, declared content type, non-empty payload, raw
size limit, magic-byte signature. -/
def _read_image_upload
    (optimizeF : Bytes → String → Except HttpError (Bytes × String))
    (file : Option UploadFile) : Except HttpError (Bytes × String) :=
  match file with
  | none => .error ⟨400, "Nenhuma imagem enviada."⟩
  | some f =>
    if f.filename = "" then .error ⟨400, "Nenhuma imagem enviada."⟩
    else if f.contentType ∉ allowedMime.map some then
      .error ⟨400, "Formato inválido. Use PNG ou JPG."⟩
    else if f.data = [] then .error ⟨400, "Arquivo de imagem vazio."⟩
    else if maxImageBytes < f.data.length then
      .error ⟨413, "Imagem muito grande."⟩
    else
      match _detect_image_mime f.data with
      | none => .error ⟨400, "Imagem inválida ou corrompida (assinatura não reconhecida)."⟩
      | some realMime => optimizeF f.data realMime

/-- Quantization applied by the `Numeric(20, 2)` column (src/models.py
line 13): the stored value is the submitted value rounded to two decimal
places. -/
def quantize2 (v : ℚ) : ℚ := (round (100 * v) : ℤ) / 100

/-- Modelled from the spec: `crud.create_produto` is imported by
`src/main.py` but the `crud` data-access module is missing from the
sources (`src/crud.py` is a second copy of `main.py`).  Section 4.1 of the
spec: persist the product fields together with image bytes, MIME type and
content hash as one atomic update; section 3: the identifier is assigned
by the store on creation, active defaults to true.  Neither the spec nor
the in-source schema (`ProdutoCreate`, src/schemas.py lines 10-12) nor
the form parameters (src/main.py lines 585-587) impose any constraint on
the submitted price, so it is persisted as submitted (quantized by the
two-decimal column). -/
def create_produto (hashHex : Bytes → String) (db : List Produto)
    (nome descricao : String) (valor : ℚ)
    (imagemBytes : Bytes) (imagemMime : String) : List Produto :=
  db ++ [{ id := db.length + 1
           nome := nome
           descricao := some descricao
           valor := quantize2 valor
           imagem_url := none
           imagem_mime := some imagemMime
           imagem_bytes := some imagemBytes
           imagem_sha256 := some (hashHex imagemBytes)
           ativo := true }]

/-- `admin_create_produto` (src/main.py lines 583-607): run the upload
validation pipeline; on failure the exception propagates and the store is
untouched, on success `crud.create_produto` persists the new row.  The
result pairs the resulting store with the error, if any. -/
def admin_create_produto (hashHex : Bytes → String)
    (optimizeF : Bytes → String → Except HttpError (Bytes × String))
    (db : List Produto) (nome descricao : String) (valor : ℚ)
    (imagem_arquivo : Option UploadFile) : List Produto × Option HttpError :=
  match _read_image_upload optimizeF imagem_arquivo with
  | .error e => (db, some e)
  | .ok (bs, mime) => (create_produto hashHex db nome descricao valor bs mime, none)

/-- `admin_edit_produto` (src/main.py lines 619-651): when a replacement
image is supplied it passes through the same validation pipeline, and a
validation failure propagates before `crud.update_produto` (missing from
the sources, abstracted as `updF`) is reached. -/
def admin_edit_produto
    (updF : List Produto → Nat → String → String → ℚ → Option Bytes → Option String → List Produto)
    (optimizeF : Bytes → String → Except HttpError (Bytes × String))
    (db : List Produto) (produto_id : Nat) (nome descricao : String) (valor : ℚ)
    (imagem_arquivo : Option UploadFile) : List Produto × Option HttpError :=
  match imagem_arquivo with
  | some f =>
    if f.filename ≠ "" then
      match _read_image_upload optimizeF (some f) with
      | .error e => (db, some e)
      | .ok (bs, mime) => (updF db produto_id nome descricao valor (some bs) (some mime), none)
    else (updF db produto_id nome descricao valor none none, none)
  | none => (updF db produto_id nome descricao valor none none, none)

/-- The `ProdutoOut` response schema (src/schemas.py lines 21-30): the
consumer-facing projection of a stored product.  The price field is
declared as a plain number (`valor: float`) and carries the stored value
through unchanged; no fixed-point formatting is applied. -/
structure ProdutoOut where
  nome : String
  descricao : Option String
  valor : ℚ
  id : Nat
  imagem_url : Option String
  ativo : Bool
deriving Repr, DecidableEq

/-- Conversion of a stored row to its consumer-facing view
(`response_model=list[schemas.ProdutoOut]`, src/main.py line 475). -/
def produto_out (p : Produto) : ProdutoOut :=
  { nome := p.nome
    descricao := p.descricao
    valor := p.valor
    id := p.id
    imagem_url := p.imagem_url
    ativo := p.ativo }

/-- `HOME_PAGE_SIZE` (src/main.py line 404). -/
def homePageSize : Nat := 10

/-- `_build_pagination_items` (src/main.py lines 407-428): compact page
list for the frontend, `none` standing for the ellipsis.  `List.range' a n`
is Python `range(a, a + n)`; for `current_page >= 1` the truncated `Nat`
subtractions agree with the Python integer arithmetic. -/
def _build_pagination_items (current_page total_pages : Nat) : List (Option Nat) :=
  if total_pages ≤ 7 then
    (List.range' 1 total_pages).map some
  else
    let window_start := max 2 (current_page - 1)
    let window_end := min (total_pages - 1) (current_page + 1)
    [some 1]
      ++ (if 2 < window_start then [none] else [])
      ++ (List.range' window_start (window_end + 1 - window_start)).map some
      ++ (if window_end < total_pages - 1 then [none] else [])
      ++ [some total_pages]

/-- The page data computed by the home handler. -/
structure IndexPage where
  pagina_atual : Nat
  total_paginas : Nat
deriving Repr, DecidableEq

/-- `index` (src/main.py lines 431-459) restricted to its pagination
logic.  The declaration `page: int = Query(1, ge=1)` makes FastAPI reject
any page below 1 with a 422 validation error before the handler body
runs; otherwise `total_paginas = max(1, math.ceil(total/10))` (the exact
ceiling, written `(total + 9) / 10` over naturals) and
`pagina_atual = min(page, total_paginas)`.  The active-product count
(`crud.count_produtos_ativos`, absent from the sources) is the parameter
`totalProdutos`. -/
def index (totalProdutos : Nat) (page : Int) : Except HttpError IndexPage :=
  if page < 1 then
    .error ⟨422, "Input should be greater than or equal to 1"⟩
  else
    let total_paginas := max 1 ((totalProdutos + 9) / 10)
    let pagina_atual := min page.toNat total_paginas
    .ok ⟨pagina_atual, total_paginas⟩

/-- A decoded Pillow image as far as the optimization loop observes it:
its dimensions and whether it carries an alpha channel (`_has_alpha`,
src/main.py lines 168-180; the alpha flag is computed once, before the
loop). -/
structure PilImage where
  w : Nat
  h : Nat
  alpha : Bool
deriving Repr, DecidableEq

/-- `min_dim = 320` (src/main.py line 294). -/
def optimizeMinDim : Nat := 320

/-- One `int(side * 0.90)` shrink step guarded by `max(1, ...)`
(src/main.py lines 318-320).  For dimensions below 2 to the 50th power the
floating multiplication by 0.90 followed by `int` truncation coincides
with the exact floor `9 * n / 10`, which is how it is modelled. -/
def shrink90 (n : Nat) : Nat := max 1 (9 * n / 10)

/-- The `img.resize((new_w, new_h), ...)` call at the bottom of the loop
(src/main.py lines 317-321); resizing preserves the alpha flag. -/
def resizeStep (img : PilImage) : PilImage :=
  { w := shrink90 img.w, h := shrink90 img.h, alpha := img.alpha }

/-- One encoding pass of the loop body (src/main.py lines 296-304): PNG
when the image has alpha, JPEG otherwise.  The Pillow codecs
`_encode_png` and `_encode_jpeg_under_target` are abstracted as the
encoder parameters, mapping dimensions to output bytes. -/
def encodeOnce (encPng encJpeg : Nat → Nat → Bytes) (img : PilImage) : Bytes × String :=
  if img.alpha then (encPng img.w img.h, "image/png")
  else (encJpeg img.w img.h, "image/jpeg")

/-- The `while True` loop of `_optimize_image_bytes` (src/main.py lines
296-321), embedded with explicit fuel so that its termination is a
provable statement rather than an assumption: return the encoding when it
meets the byte target, return it unconditionally once the longest
dimension is at most `min_dim = 320`, otherwise shrink both sides by the
0.90 factor and iterate. -/
def _optimize_image_bytes (encPng encJpeg : Nat → Nat → Bytes) (target : Nat) :
    Nat → PilImage → Option (Bytes × String)
  | 0, _ => none
  | fuel + 1, img =>
    let out := encodeOnce encPng encJpeg img
    if out.1.length ≤ target then some out
    else if max img.w img.h ≤ optimizeMinDim then some out
    else _optimize_image_bytes encPng encJpeg target fuel (resizeStep img)

/-- The constant-time byte-string comparison of `secrets.compare_digest`
(accumulate the bitwise OR of the XOR of each byte pair, with no early
exit, and require equal lengths). -/
def ctEq (a b : Bytes) : Bool :=
  (a.length == b.length) &&
    (((a.zip b).foldl (fun acc p => acc ||| (p.1 ^^^ p.2)) 0) == 0)

/-- A decoded admin session token: payload (username and expiration
timestamp) plus keyed-hash signature. -/
structure AdminToken where
  username : String
  exp : Nat
  sig : Bytes
deriving Repr, DecidableEq

/-- Outcome of the admin session guard. -/
inductive AuthResult where
  | authorized (user : String)
  | unauthorized
deriving Repr, DecidableEq

/-- Modelled from the spec: the signed-token admin session guard of
section 4.2 appears in other revisions of this repository but not in the
sources (both copies of `_auth_admin` in src/main.py lines 546-564 and
src/crud.py lines 219-235 implement only the HTTP Basic variant).  Per
the spec: decode the token (decoding a malformed payload fails, hence the
`Option`), recompute the expected keyed hash with `mac`, compare in
constant time, and reject on signature mismatch, malformed payload, or
passed expiration; every failure yields the same unauthorized result. -/
def verify_admin_token (mac : String → Nat → Bytes) (now : Nat)
    (decoded : Option AdminToken) : AuthResult :=
  match decoded with
  | none => .unauthorized
  | some t =>
    if ctEq t.sig (mac t.username t.exp) then
      if now < t.exp then .authorized t.username else .unauthorized
    else .unauthorized

/-- `DATABASE_URL` lookup (src/config.py line 7): `os.getenv` returns the
variable or Python `None`. -/
def loadDatabaseUrl (env : String → Option String) : Option String :=
  env "DATABASE_URL"

/-- The import-time guard of src/database.py lines 6-7: `if not
DATABASE_URL: raise ValueError(...)`.  Python truthiness makes both an
unset variable and an empty string falsy; the raise happens while the
module is imported, before the application object exists, so a failure
here precedes any request handling. -/
def database_startup (env : String → Option String) : Except String Unit :=
  match loadDatabaseUrl env with
  | none => .error "Erro crítico: DATABASE_URL não está definida nas variáveis de ambiente do Render!"
  | some url =>
    if url = "" then
      .error "Erro crítico: DATABASE_URL não está definida nas variáveis de ambiente do Render!"
    else .ok ()

/-- A JSON value, as delivered in a request body. -/
inductive JsonVal where
  | null
  | bool (b : Bool)
  | num (q : ℚ)
  | str (s : String)
  | arr (xs : List JsonVal)
  | obj (kvs : List (String × JsonVal))

/-- `gerar_link_whatsapp` (src/utils.py lines 4-20) applied to the value
the endpoint actually hands it: the whole request body, which under the
handler annotation is a JSON object (a Python dict).  An empty dict is
falsy, so the bare contact link is returned; a non-empty dict is truthy
and the `for item in itens` loop iterates over its string keys, so the
first subscript `item["quantidade"]` raises `TypeError` (string indices
must be integers), which surfaces as a 500 response. -/
def gerar_link_whatsapp_on_dict (numero : String)
    (kvs : List (String × JsonVal)) : Except HttpError String :=
  match kvs with
  | [] => .ok ("https://wa.me/" ++ numero)
  | _ :: _ => .error ⟨500, "TypeError: string indices must be integers"⟩

/-- `api_whatsapp` (src/main.py lines 658-665).  The handler declares its
body as `payload: dict`, so FastAPI accepts only a JSON object and
rejects every other body shape — in particular a JSON array — with a 422
validation error; an accepted object is passed verbatim to
`gerar_link_whatsapp`. -/
def api_whatsapp (numero : String) (payload : JsonVal) : Except HttpError String :=
  match payload with
  | .obj kvs => gerar_link_whatsapp_on_dict numero kvs
  | _ => .error ⟨422, "Input should be a valid dictionary"⟩

/-- A fixed stand-in for the SHA-256 hex digest used when the abstract
hash parameter must be instantiated on concrete inputs (a real digest is
a 64-character hex string, in particular nonempty). -/
def demoHash : Bytes → String := fun _ => "a3f1d4c2"

/-- A stored product whose image bytes match no PNG/JPEG signature. -/
def corruptProduto : Produto :=
  { id := 1, nome := "Cantoneira", descricao := some "perfil",
    valor := 10, imagem_url := none, imagem_mime := some "image/png",
    imagem_bytes := some [0, 1, 2], imagem_sha256 := none, ativo := true }

/-- A second corrupt product, with different stored bytes. -/
def corruptProduto2 : Produto :=
  { corruptProduto with id := 2, imagem_bytes := some [255, 0, 255] }

/-- A stored product whose image bytes carry the PNG signature. -/
def validProduto : Produto :=
  { corruptProduto with id := 3, imagem_bytes := some pngMagic }

/-- A trivial concrete instantiation of the abstracted compaction step:
keep the bytes and MIME unchanged. -/
def idOptimize : Bytes → String → Except HttpError (Bytes × String) :=
  fun bs m => .ok (bs, m)

/-- A trivial concrete instantiation of the abstracted
`crud.update_produto`: leave the store unchanged. -/
def idUpdate : List Produto → Nat → String → String → ℚ → Option Bytes → Option String → List Produto :=
  fun db _ _ _ _ _ _ => db

/-- An upload whose declared type is PNG but whose bytes start with the
GIF signature. -/
def gifUpload : UploadFile := ⟨"foto.png", some "image/png", [0x47, 0x49, 0x46, 0x38]⟩

/-- An upload whose declared type and bytes are both PNG. -/
def pngUpload : UploadFile := ⟨"foto.png", some "image/png", pngMagic⟩

/-- One JSON cart item, as the spec describes the cart entries. -/
def cartItemJson : JsonVal :=
  .obj [("nome", .str "Cantoneira 20mm"), ("quantidade", .num 2), ("valor_unitario", .num 10)]

/-- C7: if the database connection string environment variable is absent
(unset or empty) at process startup, startup fails with a fatal error
before any request can be served (src/database.py lines 6-7, src/config.py
line 7: `os.getenv` yields `None` when unset, and `if not DATABASE_URL`
treats both `None` and the empty string as absent, raising `ValueError`
at module import time). -/
theorem database_url_absent_is_fatal (env : String → Option String)
    (h : env "DATABASE_URL" = none ∨ env "DATABASE_URL" = some "") :
    database_startup env
      = .error "Erro crítico: DATABASE_URL não está definida nas variáveis de ambiente do Render!" := by
  rcases h with h | h <;> simp [database_startup, loadDatabaseUrl, h]

/-- Witness for C7 at the concrete empty environment. -/
theorem database_url_absent_is_fatal_witness :
    database_startup (fun _ => none)
      = .error "Erro crítico: DATABASE_URL não está definida nas variáveis de ambiente do Render!" :=
  database_url_absent_is_fatal (fun _ => none) (Or.inl rfl)

/-- C8: the endpoint `POST /api/whatsapp` cannot accept the cart the spec
describes.  The handler (src/main.py lines 658-665) declares its body as
`payload: dict`, so the JSON array of cart items is rejected with a 422
validation error, and wrapping the items in an object instead reaches
`gerar_link_whatsapp` (src/utils.py lines 4-20), which iterates the dict
keys and crashes on `item["quantidade"]` (a 500), while an empty object
falls into the falsy branch and yields the bare contact link.  Evaluated
here at the failing inputs. -/
theorem api_whatsapp_rejects_list_cart :
    api_whatsapp "5561985700278" (JsonVal.arr [cartItemJson])
        = .error ⟨422, "Input should be a valid dictionary"⟩
    ∧ api_whatsapp "5561985700278" (JsonVal.obj [("itens", JsonVal.arr [cartItemJson])])
        = .error ⟨500, "TypeError: string indices must be integers"⟩
    ∧ api_whatsapp "5561985700278" (JsonVal.obj [])
        = .ok "https://wa.me/5561985700278" :=
  ⟨rfl, rfl, rfl⟩

/-- C2: for every stored product whose (present, nonempty) image bytes do
not begin with the PNG or JPEG signature, the media endpoint fails with
HTTP 500 for every value of the conditional header — it never answers
with the corrupt bytes, a placeholder, or a 304 (src/main.py lines
515-518: the signature check precedes both the conditional-GET handling
and the 200 response). -/
theorem media_produto_corrupt_bytes_500 (hashHex : Bytes → String)
    (lookup : Nat → Option Produto) (pid : Nat) (p : Produto) (bs : Bytes)
    (hl : lookup pid = some p) (hb : p.imagem_bytes = some bs)
    (hne : bs ≠ []) (hbad : _detect_image_mime bs = none) (inm : Option String) :
    media_produto hashHex lookup pid inm
      = .err 500 "Imagem no banco está inválida/corrompida." := by
  unfold media_produto
  rw [hl]; dsimp only
  rw [hb]; dsimp only
  rw [if_neg hne, hbad]

/-- Witness for C2 at a concrete corrupt product and absent header. -/
theorem media_produto_corrupt_bytes_500_witness :
    media_produto demoHash (fun _ => some corruptProduto2) 9 none
      = .err 500 "Imagem no banco está inválida/corrompida." :=
  media_produto_corrupt_bytes_500 demoHash (fun _ => some corruptProduto2) 9
    corruptProduto2 [255, 0, 255] rfl rfl (by decide) (by decide) none

/-- Helper: the upload validator rejects a payload whose magic bytes
match no supported format, whatever the compaction step would have done. -/
theorem read_image_upload_bad_signature
    (optimizeF : Bytes → String → Except HttpError (Bytes × String))
    (f : UploadFile) (ct : String)
    (hct : f.contentType = some ct) (hmem : ct ∈ allowedMime)
    (hfn : f.filename ≠ "") (hne : f.data ≠ [])
    (hsize : f.data.length ≤ maxImageBytes)
    (hbad : _detect_image_mime f.data = none) :
    _read_image_upload optimizeF (some f)
      = .error ⟨400, "Imagem inválida ou corrompida (assinatura não reconhecida)."⟩ := by
  unfold _read_image_upload
  dsimp only
  rw [if_neg hfn, if_neg (not_not_intro (hct ▸ List.mem_map_of_mem some hmem)),
    if_neg hne, if_neg (Nat.not_lt.mpr hsize), hbad]

/-- C3: an admin image upload whose declared content type is an allowed
image type but whose payload bytes begin with no supported magic-byte
signature is rejected with a 400 validation error by both the creation
and the edit handler, and the product store is returned unchanged — the
exception propagates before any `crud` persistence call (src/main.py
lines 355-358 inside `_read_image_upload`, called at lines 599 and 640). -/
theorem upload_bad_signature_rejected_state_unchanged
    (hashHex : Bytes → String)
    (optimizeF : Bytes → String → Except HttpError (Bytes × String))
    (updF : List Produto → Nat → String → String → ℚ → Option Bytes → Option String → List Produto)
    (db : List Produto) (pid : Nat) (nome descricao : String) (valor : ℚ)
    (f : UploadFile) (ct : String)
    (hct : f.contentType = some ct) (hmem : ct ∈ allowedMime)
    (hfn : f.filename ≠ "") (hne : f.data ≠ [])
    (hsize : f.data.length ≤ maxImageBytes)
    (hbad : _detect_image_mime f.data = none) :
    admin_create_produto hashHex optimizeF db nome descricao valor (some f)
        = (db, some ⟨400, "Imagem inválida ou corrompida (assinatura não reconhecida)."⟩)
    ∧ admin_edit_produto updF optimizeF db pid nome descricao valor (some f)
        = (db, some ⟨400, "Imagem inválida ou corrompida (assinatura não reconhecida)."⟩) := by
  have h := read_image_upload_bad_signature optimizeF f ct hct hmem hfn hne hsize hbad
  constructor
  · unfold admin_create_produto
    rw [h]
  · unfold admin_edit_produto
    dsimp only
    rw [if_pos hfn, h]

/-- Witness for C3: a GIF payload declared as PNG is rejected by the
create handler and the store stays empty. -/
theorem upload_bad_signature_rejected_witness :
    admin_create_produto demoHash idOptimize [] "Cantoneira" "" 10 (some gifUpload)
      = ([], some ⟨400, "Imagem inválida ou corrompida (assinatura não reconhecida)."⟩) :=
  (upload_bad_signature_rejected_state_unchanged demoHash idOptimize idUpdate []
    1 "Cantoneira" "" 10 gifUpload "image/png" rfl (by decide) (by decide)
    (by decide) (by decide) (by decide)).1

/-- Counterexample to C1 as stated: `corruptProduto` is a stored product
that has image bytes, yet a GET with no `If-None-Match` header does not
answer 200 with the stored bytes — the signature check at src/main.py
lines 515-518 runs first and turns the request into a 500.  The claim
quantifies over every product with image bytes, so this product refutes
it. -/
theorem media_produto_claim_counterexample :
    media_produto demoHash (fun _ => some corruptProduto) 1 none
        = .err 500 "Imagem no banco está inválida/corrompida."
    ∧ (media_produto demoHash (fun _ => some corruptProduto) 1 none).status ≠ 200
    ∧ (media_produto demoHash (fun _ => some corruptProduto) 1 none).body ≠ [0, 1, 2] := by
  refine ⟨?_, ?_, ?_⟩ <;> decide

/-- C1 as amended: for every product whose stored image bytes carry a
recognized PNG/JPEG signature, a GET with an `If-None-Match` header whose
value, after stripping surrounding quotes, equals the content hash of the
stored bytes answers 304 with no body; with the header absent, or with a
non-matching value, it answers 200 with exactly the stored bytes and an
ETag header equal to the quoted hash (src/main.py lines 523-539).  The
hash is the abstract digest parameter; the hypothesis that the digest is
nonempty reflects that a SHA-256 hex digest has 64 characters. -/
theorem media_produto_etag_conditional_get
    (hashHex : Bytes → String) (lookup : Nat → Option Produto)
    (pid : Nat) (p : Produto) (bs : Bytes) (mime : String)
    (hl : lookup pid = some p) (hb : p.imagem_bytes = some bs)
    (hm : _detect_image_mime bs = some mime) (hh : hashHex bs ≠ "") :
    (∀ inm, stripQuotes inm = hashHex bs →
        media_produto hashHex lookup pid (some inm) = .notModified)
    ∧ media_produto hashHex lookup pid none
        = .okBody bs mime ("\"" ++ hashHex bs ++ "\"")
    ∧ (∀ inm, stripQuotes inm ≠ hashHex bs →
        media_produto hashHex lookup pid (some inm)
          = .okBody bs mime ("\"" ++ hashHex bs ++ "\"")) := by
  have hne : bs ≠ [] := by
    intro h
    rw [h] at hm
    exact Option.noConfusion hm
  refine ⟨?_, ?_, ?_⟩
  · intro inm hmatch
    have hinm : inm ≠ "" := by
      intro h
      rw [h] at hmatch
      have hempty : stripQuotes "" = "" := by decide
      rw [hempty] at hmatch
      exact hh hmatch.symm
    unfold media_produto
    rw [hl]; dsimp only
    rw [hb]; dsimp only
    rw [if_neg hne, hm]
    dsimp only
    rw [if_pos ⟨hinm, hmatch⟩]
  · unfold media_produto
    rw [hl]; dsimp only
    rw [hb]; dsimp only
    rw [if_neg hne, hm]
  · intro inm hnomatch
    unfold media_produto
    rw [hl]; dsimp only
    rw [hb]; dsimp only
    rw [if_neg hne, hm]
    dsimp only
    rw [if_neg (fun hc => hnomatch hc.2)]

/-- Witness for the amended C1 at a concrete product with PNG bytes: the
matching header yields 304, the absent header yields the bytes and the
quoted ETag. -/
theorem media_produto_etag_conditional_get_witness :
    media_produto demoHash (fun _ => some validProduto) 3 (some "\"a3f1d4c2\"")
        = .notModified
    ∧ media_produto demoHash (fun _ => some validProduto) 3 none
        = .okBody pngMagic "image/png" "\"a3f1d4c2\"" :=
  ⟨(media_produto_etag_conditional_get demoHash (fun _ => some validProduto) 3
      validProduto pngMagic "image/png" rfl rfl (by decide) (by decide)).1
      "\"a3f1d4c2\"" (by decide),
   (media_produto_etag_conditional_get demoHash (fun _ => some validProduto) 3
      validProduto pngMagic "image/png" rfl rfl (by decide) (by decide)).2.1⟩

/-- Counterexample to C4 as stated: requesting page 0 is not clamped to
page 1 — the query declaration `page: int = Query(1, ge=1)` (src/main.py
line 434) makes the framework reject the request with a 422 validation
error, so no page is produced at all. -/
theorem index_page_zero_errors :
    index 0 0 = .error ⟨422, "Input should be greater than or equal to 1"⟩
    ∧ (index 0 0).toOption = none :=
  ⟨rfl, rfl⟩

/-- C4 as amended: for page size 10, a requested page below 1 never
reaches the handler (422, see the counterexample); for every accepted
page the reported total page count is `max 1 (ceil(count / 10))` and the
current page is the requested page clamped from above to the last page
(src/main.py lines 440-442). -/
theorem index_pagination_clamps (totalProdutos : Nat) (page : Int)
    (hpage : 1 ≤ page) :
    ∃ pg : IndexPage,
      index totalProdutos page = .ok pg
      ∧ pg.total_paginas = max 1 ((totalProdutos + 9) / 10)
      ∧ 1 ≤ pg.pagina_atual
      ∧ pg.pagina_atual ≤ pg.total_paginas
      ∧ (page.toNat ≤ pg.total_paginas → pg.pagina_atual = page.toNat)
      ∧ (pg.total_paginas < page.toNat → pg.pagina_atual = pg.total_paginas) := by
  refine ⟨⟨min page.toNat (max 1 ((totalProdutos + 9) / 10)),
           max 1 ((totalProdutos + 9) / 10)⟩, ?_, rfl, ?_, ?_, ?_, ?_⟩
  · unfold index
    rw [if_neg (by omega)]
  · dsimp only
    omega
  · dsimp only
    omega
  · dsimp only
    omega
  · dsimp only
    omega

/-- Witness for the amended C4: 23 active products, requested page 5 —
the total is 3 pages and the current page is clamped to 3. -/
theorem index_pagination_clamps_witness : index 23 5 = .ok ⟨3, 3⟩ := by
  obtain ⟨pg, h1, h2, h3, h4, h5, h6⟩ := index_pagination_clamps 23 5 (by decide)
  have ht : pg.total_paginas = 3 := h2
  have hp : pg.pagina_atual = 3 := by
    have := h6 (by rw [ht]; decide)
    rw [this, ht]
  have : pg = ⟨3, 3⟩ := by
    cases pg
    simp only [IndexPage.mk.injEq]
    exact ⟨hp, ht⟩
  rw [this] at h1
  exact h1

/-- Helper: quantizing an integral price leaves it unchanged. -/
theorem quantize2_intCast (n : ℤ) : quantize2 (n : ℚ) = n := by
  unfold quantize2
  rw [show (100 : ℚ) * (n : ℚ) = ((100 * n : ℤ) : ℚ) by push_cast; ring, round_intCast]
  push_cast
  exact mul_div_cancel_left₀ _ (by norm_num)

/-- Counterexample to C6 as stated: nothing in the creation path checks
the sign of the submitted price (`valor: float = Form(...)` at
src/main.py line 586, unconstrained `ProdutoCreate.valor` at
src/schemas.py line 8), so an admin submission with price -1 and a valid
PNG upload succeeds and the store then contains a product with a negative
price. -/
theorem negative_price_reachable :
    (admin_create_produto demoHash idOptimize [] "Cantoneira" "" (-1) (some pngUpload)).2 = none
    ∧ (admin_create_produto demoHash idOptimize [] "Cantoneira" "" (-1) (some pngUpload)).1.map
        Produto.valor = [(-1 : ℚ)]
    ∧ ¬ (0 ≤ (-1 : ℚ)) := by
  refine ⟨by decide, ?_, by norm_num⟩
  have hq : quantize2 (-1 : ℚ) = -1 := by
    have h := quantize2_intCast (-1)
    push_cast at h
    exact h
  show [quantize2 (-1 : ℚ)] = [(-1 : ℚ)]
  rw [hq]

/-- C6 as amended: creation persists the submitted price quantized to the
two-decimal column scale with its sign unchecked (a price at most -1
stays negative in the store), and the consumer-facing projection carries
the stored value through unchanged — as a plain number, not a fixed
two-decimal string. -/
theorem price_persisted_without_sign_check (hashHex : Bytes → String)
    (db : List Produto) (nome descricao : String) (valor : ℚ)
    (bs : Bytes) (mime : String) :
    (create_produto hashHex db nome descricao valor bs mime).map Produto.valor
        = db.map Produto.valor ++ [quantize2 valor]
    ∧ (∀ p : Produto, (produto_out p).valor = p.valor)
    ∧ (∀ v : ℚ, v ≤ -1 → quantize2 v < 0) := by
  refine ⟨by simp [create_produto], fun p => rfl, ?_⟩
  intro v hv
  unfold quantize2
  have h1 : round (100 * v) ≤ -100 := by
    have hfl : ⌊(-100 : ℚ) + 1 / 2⌋ = -100 := by
      rw [Int.floor_eq_iff]
      constructor <;> norm_num
    calc round (100 * v) = ⌊100 * v + 1 / 2⌋ := round_eq _
      _ ≤ ⌊(-100 : ℚ) + 1 / 2⌋ := Int.floor_le_floor (by linarith)
      _ = -100 := hfl
  have h2 : ((round (100 * v) : ℤ) : ℚ) ≤ -100 := by exact_mod_cast h1
  exact div_neg_of_neg_of_pos (lt_of_le_of_lt h2 (by norm_num)) (by norm_num)

/-- Witness for the amended C6: a price of 5 is persisted as 5;
quantization and the pass-through projection evaluated concretely, and
the negative branch instantiated at -1. -/
theorem price_persisted_without_sign_check_witness :
    (create_produto demoHash [] "Perfil" "" 5 pngMagic "image/png").map Produto.valor
        = [(5 : ℚ)]
    ∧ quantize2 (-1) < 0 := by
  constructor
  · have h := (price_persisted_without_sign_check demoHash [] "Perfil" "" 5 pngMagic "image/png").1
    rw [h]
    have hq : quantize2 (5 : ℚ) = 5 := by
      have h5 := quantize2_intCast 5
      push_cast at h5
      exact h5
    rw [List.map_nil, List.nil_append, hq]
  · exact (price_persisted_without_sign_check demoHash [] "Perfil" "" 5 pngMagic "image/png").2.2
      (-1) (by norm_num)

/-- Helper: a bitwise OR of naturals is zero exactly when both are. -/
theorem nat_lor_eq_zero_iff {m n : Nat} : m ||| n = 0 ↔ m = 0 ∧ n = 0 := by
  constructor
  · intro h
    have hbits : ∀ i, m.testBit i = false ∧ n.testBit i = false := by
      intro i
      have hb := congrArg (fun t => Nat.testBit t i) h
      simpa only [Nat.testBit_or, Nat.zero_testBit, Bool.or_eq_false_iff] using hb
    exact ⟨Nat.eq_of_testBit_eq fun i => by rw [(hbits i).1, Nat.zero_testBit],
           Nat.eq_of_testBit_eq fun i => by rw [(hbits i).2, Nat.zero_testBit]⟩
  · rintro ⟨rfl, rfl⟩
    rfl

/-- Helper: the running OR accumulator of the constant-time comparison is
zero exactly when it started at zero and every XOR contribution is zero. -/
theorem foldl_lor_eq_zero (l : List (Nat × Nat)) :
    ∀ acc, l.foldl (fun acc p => acc ||| p.1 ^^^ p.2) acc = 0
      ↔ (acc = 0 ∧ ∀ p ∈ l, p.1 ^^^ p.2 = 0) := by
  induction l with
  | nil => intro acc; simp
  | cons x xs ih =>
    intro acc
    rw [List.foldl_cons, ih]
    simp only [nat_lor_eq_zero_iff, List.mem_cons]
    constructor
    · rintro ⟨⟨ha, hx⟩, hall⟩
      exact ⟨ha, fun y hy => hy.elim (fun h => h ▸ hx) (hall y)⟩
    · rintro ⟨ha, hall⟩
      exact ⟨⟨ha, hall x (Or.inl rfl)⟩, fun y hy => hall y (Or.inr hy)⟩

/-- Helper: equal lengths plus pointwise zero XOR characterize equality. -/
theorem zip_xor_zero_iff (a : List Nat) :
    ∀ b : List Nat,
      (a.length = b.length ∧ ∀ p ∈ a.zip b, p.1 ^^^ p.2 = 0) ↔ a = b := by
  induction a with
  | nil => intro b; cases b <;> simp
  | cons x xs ih =>
    intro b
    cases b with
    | nil => simp
    | cons y ys =>
      simp only [List.length_cons, List.zip_cons_cons, List.mem_cons, List.cons.injEq]
      constructor
      · rintro ⟨hlen, hall⟩
        refine ⟨Nat.xor_eq_zero.mp (hall (x, y) (Or.inl rfl)), (ih ys).mp ?_⟩
        exact ⟨Nat.succ_injective hlen, fun p hp => hall p (Or.inr hp)⟩
      · rintro ⟨rfl, rfl⟩
        refine ⟨rfl, ?_⟩
        intro p hp
        rcases hp with h | h
        · rw [h]
          exact Nat.xor_self x
        · exact ((ih xs).mpr rfl).2 p h

/-- The constant-time comparison agrees with equality. -/
theorem ctEq_eq_true_iff (a b : Bytes) : ctEq a b = true ↔ a = b := by
  unfold ctEq
  rw [Bool.and_eq_true, beq_iff_eq, beq_iff_eq, foldl_lor_eq_zero]
  rw [← zip_xor_zero_iff a b]
  constructor
  · rintro ⟨hlen, _, hall⟩
    exact ⟨hlen, hall⟩
  · rintro ⟨hlen, hall⟩
    exact ⟨hlen, rfl, hall⟩

/-- C5: the admin session guard rejects a token whose embedded expiration
has passed even when its keyed-hash signature is valid; it likewise
rejects a malformed (undecodable) payload and a signature that fails the
constant-time comparison, which itself decides exactly equality of byte
strings.  (Modelled from spec section 4.2: the signed-token guard is not
among the sources, whose `_auth_admin` implements only the HTTP Basic
variant.) -/
theorem admin_token_guard_rejects (mac : String → Nat → Bytes) (now : Nat) :
    verify_admin_token mac now none = .unauthorized
    ∧ (∀ t : AdminToken, t.sig = mac t.username t.exp → t.exp ≤ now →
        verify_admin_token mac now (some t) = .unauthorized)
    ∧ (∀ t : AdminToken, ctEq t.sig (mac t.username t.exp) = false →
        verify_admin_token mac now (some t) = .unauthorized)
    ∧ (∀ a b : Bytes, ctEq a b = true ↔ a = b) := by
  refine ⟨rfl, ?_, ?_, ctEq_eq_true_iff⟩
  · intro t hsig hexp
    unfold verify_admin_token
    dsimp only
    rw [hsig, (ctEq_eq_true_iff (mac t.username t.exp) (mac t.username t.exp)).mpr rfl,
      if_pos rfl, if_neg (Nat.not_lt.mpr hexp)]
  · intro t hne
    unfold verify_admin_token
    dsimp only
    rw [hne, if_neg Bool.false_ne_true]

/-- Witness for C5: a concrete expired token with a valid signature is
rejected. -/
theorem admin_token_guard_rejects_witness :
    verify_admin_token (fun _ _ => [7, 7]) 10 (some ⟨"admin", 5, [7, 7]⟩)
      = .unauthorized :=
  (admin_token_guard_rejects (fun _ _ => [7, 7]) 10).2.1 ⟨"admin", 5, [7, 7]⟩ rfl
    (by decide)

/-- Helper: one 0.90 shrink step strictly decreases a side of at least 2. -/
theorem shrink90_lt {n : Nat} (h : 2 ≤ n) : shrink90 n < n := by
  unfold shrink90
  have hdiv : 9 * n / 10 < n := by
    rw [Nat.div_lt_iff_lt_mul (by norm_num)]
    omega
  omega

/-- Helper: the shrink step is monotone. -/
theorem shrink90_mono {m n : Nat} (h : m ≤ n) : shrink90 m ≤ shrink90 n := by
  unfold shrink90
  have hdiv : 9 * m / 10 ≤ 9 * n / 10 := Nat.div_le_div_right (by omega)
  omega

/-- Helper: while the longest side exceeds the floor, resizing strictly
shrinks the longest side. -/
theorem resizeStep_decreases (img : PilImage) (h : optimizeMinDim < max img.w img.h) :
    max (resizeStep img).w (resizeStep img).h < max img.w img.h := by
  have h2 : 2 ≤ max img.w img.h := by
    unfold optimizeMinDim at h
    omega
  have hw : shrink90 img.w ≤ shrink90 (max img.w img.h) :=
    shrink90_mono (Nat.le_max_left _ _)
  have hh : shrink90 img.h ≤ shrink90 (max img.w img.h) :=
    shrink90_mono (Nat.le_max_right _ _)
  have hlt : shrink90 (max img.w img.h) < max img.w img.h := shrink90_lt h2
  unfold resizeStep
  dsimp only
  omega

/-- Helper: whatever the loop returns was produced by `encodeOnce` on an
image with the same alpha flag, so the output format is PNG exactly when
the input had alpha. -/
theorem optimize_loop_mime (encPng encJpeg : Nat → Nat → Bytes) (target : Nat) :
    ∀ (fuel : Nat) (img : PilImage) (out : Bytes × String),
      _optimize_image_bytes encPng encJpeg target fuel img = some out →
      out.2 = (if img.alpha then "image/png" else "image/jpeg") := by
  intro fuel
  induction fuel with
  | zero => intro img out h; exact Option.noConfusion h
  | succ n ih =>
    intro img out h
    simp only [_optimize_image_bytes] at h
    by_cases hlen : (encodeOnce encPng encJpeg img).1.length ≤ target
    · rw [if_pos hlen] at h
      cases h
      unfold encodeOnce
      by_cases ha : img.alpha <;> simp [ha]
    · rw [if_neg hlen] at h
      by_cases hdim : max img.w img.h ≤ optimizeMinDim
      · rw [if_pos hdim] at h
        cases h
        unfold encodeOnce
        by_cases ha : img.alpha <;> simp [ha]
      · rw [if_neg hdim] at h
        have := ih (resizeStep img) out h
        rwa [show (resizeStep img).alpha = img.alpha from rfl] at this

/-- Helper: with fuel exceeding the longest dimension the loop returns. -/
theorem optimize_loop_isSome (encPng encJpeg : Nat → Nat → Bytes) (target : Nat) :
    ∀ (fuel : Nat) (img : PilImage), max img.w img.h < fuel →
      (_optimize_image_bytes encPng encJpeg target fuel img).isSome = true := by
  intro fuel
  induction fuel with
  | zero => intro img h; omega
  | succ n ih =>
    intro img h
    simp only [_optimize_image_bytes]
    by_cases hlen : (encodeOnce encPng encJpeg img).1.length ≤ target
    · rw [if_pos hlen]; rfl
    · rw [if_neg hlen]
      by_cases hdim : max img.w img.h ≤ optimizeMinDim
      · rw [if_pos hdim]; rfl
      · rw [if_neg hdim]
        apply ih
        have hdec := resizeStep_decreases img (by omega)
        omega

/-- C10: for every decodable input image the optimization loop
terminates within `longest dimension + 1` iterations, producing PNG when
the image has alpha and JPEG otherwise; each non-returning iteration
strictly shrinks the longest dimension via the 0.90 resize; and once the
longest dimension is at most the 320-pixel floor the loop returns the
current encoding unconditionally, even when it exceeds the byte target
(src/main.py lines 296-321). -/
theorem optimize_image_bytes_terminates (encPng encJpeg : Nat → Nat → Bytes)
    (target : Nat) (img : PilImage) :
    (∃ out, _optimize_image_bytes encPng encJpeg target (max img.w img.h + 1) img = some out
      ∧ out.2 = (if img.alpha then "image/png" else "image/jpeg"))
    ∧ (optimizeMinDim < max img.w img.h →
        max (resizeStep img).w (resizeStep img).h < max img.w img.h)
    ∧ (max img.w img.h ≤ optimizeMinDim → ∀ fuel,
        _optimize_image_bytes encPng encJpeg target (fuel + 1) img
          = some (encodeOnce encPng encJpeg img)) := by
  refine ⟨?_, resizeStep_decreases img, ?_⟩
  · have hs := optimize_loop_isSome encPng encJpeg target (max img.w img.h + 1) img
      (Nat.lt_succ_self _)
    obtain ⟨out, hout⟩ := Option.isSome_iff_exists.mp hs
    exact ⟨out, hout, optimize_loop_mime encPng encJpeg target _ img out hout⟩
  · intro hdim fuel
    simp only [_optimize_image_bytes]
    by_cases hlen : (encodeOnce encPng encJpeg img).1.length ≤ target
    · rw [if_pos hlen]
    · rw [if_neg hlen, if_pos hdim]

/-- Witness for C10 at a concrete encoder pair and image: a 300 by 200
image with alpha, already under the dimension floor, returns the current
PNG encoding at once. -/
theorem optimize_image_bytes_terminates_witness :
    _optimize_image_bytes (fun _ _ => [1]) (fun _ _ => [2]) 200000 5 ⟨300, 200, true⟩
      = some ([1], "image/png") := by
  have h := (optimize_image_bytes_terminates (fun _ _ => [1]) (fun _ _ => [2]) 200000
    ⟨300, 200, true⟩).2.2 (by decide) 4
  exact h

/-- Helper: consing onto a list does not change a known last element. -/
theorem getLast?_cons_of_getLast? {α : Type} (x : α) (l : List α) (y : α)
    (h : l.getLast? = some y) : (x :: l).getLast? = some y := by
  cases l with
  | nil => exact Option.noConfusion h
  | cons a as => rw [List.getLast?_cons_cons]; exact h

/-- C9: for every `total_pages >= 1` and every current page inside
`[1, total_pages]`, the compact pagination list starts at page 1, ends at
`total_pages`, contains the current page, lists its integer entries in
strictly increasing order, and uses ellipsis entries only when more than
7 pages exist (src/main.py lines 407-428). -/
theorem build_pagination_items_invariant (current_page total_pages : Nat)
    (h1 : 1 ≤ current_page) (h2 : current_page ≤ total_pages) :
    (_build_pagination_items current_page total_pages).head? = some (some 1)
    ∧ (_build_pagination_items current_page total_pages).getLast? = some (some total_pages)
    ∧ some current_page ∈ _build_pagination_items current_page total_pages
    ∧ ((_build_pagination_items current_page total_pages).filterMap id).Pairwise (· < ·)
    ∧ (none ∈ _build_pagination_items current_page total_pages → 7 < total_pages) := by
  unfold _build_pagination_items
  by_cases htp : total_pages ≤ 7
  · rw [if_pos htp]
    refine ⟨?_, ?_, ?_, ?_, ?_⟩
    · rw [List.head?_map, List.head?_range', if_neg (by omega : ¬ total_pages = 0)]
      rfl
    · rw [List.getLast?_map, List.getLast?_range', if_neg (by omega : ¬ total_pages = 0)]
      have h : 1 + total_pages - 1 = total_pages := by omega
      rw [Option.map_some', h]
    · exact List.mem_map_of_mem some (List.mem_range'_1.mpr ⟨h1, by omega⟩)
    · rw [List.filterMap_map]
      rw [show (id ∘ some : Nat → Option Nat) = some from rfl, List.filterMap_some]
      exact List.pairwise_lt_range' 1 total_pages
    · intro hmem
      simp only [List.mem_map] at hmem
      obtain ⟨a, _, ha⟩ := hmem
      exact Option.noConfusion ha
  · rw [if_neg htp]
    dsimp only
    set ws := max 2 (current_page - 1) with hws
    set we := min (total_pages - 1) (current_page + 1) with hwe
    have hws2 : 2 ≤ ws := Nat.le_max_left 2 _
    have hwswe : ws ≤ we := by omega
    have hwe_le : we ≤ total_pages - 1 := Nat.min_le_left _ _
    refine ⟨?_, ?_, ?_, ?_, ?_⟩
    · simp
    · apply getLast?_cons_of_getLast?
      simp [List.getLast?_append]
    · by_cases hc1 : current_page = 1
      · subst hc1
        exact List.mem_append_left _ (List.mem_append_left _ (List.mem_append_left _
          (List.mem_append_left _ (List.mem_singleton.mpr rfl))))
      · by_cases hct : current_page = total_pages
        · subst hct
          exact List.mem_append_right _ (List.mem_singleton.mpr rfl)
        · have hmemr : current_page ∈ List.range' ws (we + 1 - ws) :=
            List.mem_range'_1.mpr ⟨by omega, by omega⟩
          exact List.mem_append_left _ (List.mem_append_left _
            (List.mem_append_right _ (List.mem_map_of_mem some hmemr)))
    · have hA : (if 2 < ws then [(none : Option Nat)] else []).filterMap id = [] := by
        split <;> rfl
      have hB : (if we < total_pages - 1 then [(none : Option Nat)] else []).filterMap id = [] := by
        split <;> rfl
      simp only [List.filterMap_append, hA, hB, List.filterMap_map]
      rw [show (id ∘ some : Nat → Option Nat) = some from rfl, List.filterMap_some]
      have hsingle1 : ([some 1] : List (Option Nat)).filterMap id = [1] := rfl
      have hsingleT : ([some total_pages] : List (Option Nat)).filterMap id = [total_pages] := rfl
      rw [hsingle1, hsingleT]
      simp only [List.append_nil, List.nil_append, List.cons_append, List.singleton_append]
      refine List.Pairwise.cons ?_ ?_
      · intro x hx
        rcases List.mem_append.mp hx with hx | hx
        · have := List.mem_range'_1.mp hx
          omega
        · have := List.mem_singleton.mp hx
          omega
      · refine List.pairwise_append.mpr ⟨List.pairwise_lt_range' ws (we + 1 - ws),
          List.pairwise_singleton _ _, ?_⟩
        intro a ha b hb
        have har := List.mem_range'_1.mp ha
        have hbt := List.mem_singleton.mp hb
        omega
    · intro _
      omega

/-- Witness for C9 at current page 5 of 20: the list starts at 1, ends at
20 and contains page 5. -/
theorem build_pagination_items_invariant_witness :
    (_build_pagination_items 5 20).head? = some (some 1)
    ∧ (_build_pagination_items 5 20).getLast? = some (some 20)
    ∧ some 5 ∈ _build_pagination_items 5 20 :=
  ⟨(build_pagination_items_invariant 5 20 (by decide) (by decide)).1,
   (build_pagination_items_invariant 5 20 (by decide) (by decide)).2.1,
   (build_pagination_items_invariant 5 20 (by decide) (by decide)).2.2.1⟩
